import Mathlib

/- Shallow embedding of marshmallow's class registry (src/marshmallow/class_registry.py)
   and validation-error model (src/marshmallow/exceptions.py). -/

set_option autoImplicit false

namespace Marshmallow

/-- Key used for schema-level validation errors (exceptions.py, `SCHEMA = "_schema"`). -/
def SCHEMA : String := "_schema"

/-- Opaque handle for a schema-defining class: its defining module path
(Python `cls.__module__`) plus an identity tag distinguishing class objects. -/
structure SchemaType where
  module : String
  id : Nat
deriving DecidableEq

/-- The process-wide `_registry` dict: string key to list of class objects.
Short keys and fully qualified keys share this one namespace, as in the source. -/
abbrev Registry : Type := String → Option (List SchemaType)

/-- The empty registry (`_registry = {}`). -/
def Registry.empty : Registry := fun _ => none

/-- `_registry[k] = v` on a dict modelled as a function. -/
def Registry.set (r : Registry) (k : String) (v : List SchemaType) : Registry :=
  fun q => if q = k then some v else r q

/-- `del _registry[k]`. -/
def Registry.erase (r : Registry) (k : String) : Registry :=
  fun q => if q = k then none else r q

/-- First phase of `register`: the short-key update.
Source: `if classname in _registry and any(each.__module__ == module for each in
_registry[classname]): del _registry[classname]`
`elif classname not in _registry: _registry[classname] = [cls]`
(else: the entry is left untouched). -/
def registerShort (classname : String) (cls : SchemaType) (r : Registry) : Registry :=
  match r classname with
  | some entry =>
      if entry.any (fun each => each.module == cls.module) then Registry.erase r classname
      else r
  | none => Registry.set r classname [cls]

/-- Second phase of `register`: the qualified-key update.
Source: `if fullpath not in _registry: _registry[fullpath] = [cls]`
`else: _registry[fullpath].append(cls)`. -/
def registerQual (fullpath : String) (cls : SchemaType) (r : Registry) : Registry :=
  match r fullpath with
  | none => Registry.set r fullpath [cls]
  | some entry => Registry.set r fullpath (entry ++ [cls])

/-- `register(classname, cls)` from class_registry.py, with
`module = cls.__module__` and `fullpath = ".".join([module, classname])`;
the short-key phase runs before the qualified-key phase, as in the source. -/
def register (classname : String) (cls : SchemaType) (r : Registry) : Registry :=
  registerQual (cls.module ++ "." ++ classname) cls (registerShort classname cls r)

/-- Outcomes of `get_class`: `RegistryError` for a missing name (`notFound`) or a
short-name collision (`ambiguous`); `indexError` models the `IndexError` Python
would raise on `_registry[classname][0]` for an empty entry (never produced by
`register`). -/
inductive RegistryErrorKind where
  | notFound
  | ambiguous
  | indexError
deriving DecidableEq

/-- Result of a successful `get_class`: a single class, or the full list. -/
inductive GetResult where
  | one (t : SchemaType)
  | many (ts : List SchemaType)
deriving DecidableEq

/-- `get_class(classname, all)` from class_registry.py. -/
def get_class (classname : String) (all : Bool) (r : Registry) :
    Except RegistryErrorKind GetResult :=
  match r classname with
  | none => .error .notFound
  | some classes =>
      if classes.length > 1 then
        if all then .ok (.many classes)
        else .error .ambiguous
      else
        match classes with
        | [] => .error .indexError
        | t :: _ => .ok (.one t)

/-- A Python value that can appear as a `ValidationError` message payload:
a string, a bytes object, a list, or a dict keyed by strings. -/
inductive Payload where
  | str (s : String)
  | bytes (b : List Nat)
  | list (l : List Payload)
  | dict (m : List (String × Payload))

/-- `isinstance(p, dict)`. -/
def Payload.isDict : Payload → Bool
  | .dict _ => true
  | _ => false

/-- `type(p).__name__` for the payload shapes. -/
def Payload.typeName : Payload → String
  | .str _ => "str"
  | .bytes _ => "bytes"
  | .list _ => "list"
  | .dict _ => "dict"

/-- `[message] if isinstance(message, (str, bytes)) else message`
(exceptions.py line 38). -/
def canonMessage : Payload → Payload
  | .str s => .list [.str s]
  | .bytes b => .list [.bytes b]
  | p => p

/-- The attributes of a constructed `ValidationError` that the registry/error
claims refer to; `α` is the type of the `data` / `valid_data` attachments. -/
structure ValidationError (α : Type) where
  messages : Payload
  field_name : String
  data : Option α
  valid_data : Option α

/-- `ValidationError.__init__(message, field_name, data, valid_data)` from
exceptions.py: the message is canonicalized, `field_name` is assigned the
constant `SCHEMA` regardless of the argument, and the stored `data` /
`valid_data` follow `valid_data if valid_data is not None else data` and
`data if valid_data is not None else None`. -/
def ValidationError.make (α : Type) (message : Payload) (field_name : String)
    (data : Option α) (valid_data : Option α) : ValidationError α :=
  { messages := canonMessage message
    field_name := SCHEMA
    data := if valid_data.isSome then valid_data else data
    valid_data := if valid_data.isSome then data else none }

/-- `normalized_messages()` from exceptions.py. -/
def ValidationError.normalized_messages {α : Type} (e : ValidationError α) : Payload :=
  if e.field_name = SCHEMA ∧ e.messages.isDict = true then e.messages
  else .dict [(e.field_name, e.messages)]

/-- The `messages_dict` property from exceptions.py: the stored payload when it is
a dict, otherwise a `TypeError` whose message names the actual payload shape. -/
def ValidationError.messages_dict {α : Type} (e : ValidationError α) :
    Except String (List (String × Payload)) :=
  match e.messages with
  | .dict m => .ok m
  | p => .error ("cannot access messages_dict when messages is of type " ++ p.typeName)

/-- One call to `register`, as data: the declared short name and the class. -/
structure RegCall where
  classname : String
  cls : SchemaType
deriving DecidableEq

/-- The qualified key a call produces: `cls.__module__ + "." + classname`. -/
def fullpathOf (c : RegCall) : String := c.cls.module ++ "." ++ c.classname

/-- Run a sequence of `register` calls on the empty registry. -/
def registerAll (calls : List RegCall) : Registry :=
  calls.foldl (fun r c => register c.classname c.cls r) Registry.empty

/-- How the qualified-key phase grows an entry: absent stays absent when nothing
is appended, otherwise the appended classes extend the previous entry. -/
def accQual : Option (List SchemaType) → List SchemaType → Option (List SchemaType)
  | none, [] => none
  | none, l => some l
  | some e, l => some (e ++ l)

/- Concrete instances used to evaluate the code on the claims' scenarios. -/

/-- A class named `n` defined in module `M` (first definition). -/
def tM1 : SchemaType := ⟨"M", 1⟩

/-- A class named `n` defined in module `M` (re-definition). -/
def tM2 : SchemaType := ⟨"M", 2⟩

/-- Registry after registering `n` twice from the same module `M`. -/
def regSameLoc : Registry := register "n" tM2 (register "n" tM1 Registry.empty)

/-- A class named `n` defined in module `A`. -/
def tA1 : SchemaType := ⟨"A", 1⟩

/-- A class named `n` defined in module `B`. -/
def tB2 : SchemaType := ⟨"B", 2⟩

/-- Registry after registering `n` from module `A`, then from module `B`. -/
def regTwoLoc : Registry := register "n" tB2 (register "n" tA1 Registry.empty)

/-- A class used for the single-candidate lookup scenario. -/
def tC9 : SchemaType := ⟨"m", 0⟩

/-- A registry whose entry for `a` holds exactly one candidate. -/
def regOne : Registry := Registry.set Registry.empty "a" [tC9]

/-- ValidationError("x", field_name="name"): exercises the ignored field name. -/
def errFieldName : ValidationError Nat := ValidationError.make Nat (.str "x") "name" none none

/-- ValidationError("x", data=1, valid_data=2): both attachments supplied. -/
def errBothData : ValidationError Nat :=
  ValidationError.make Nat (.str "x") SCHEMA (some 1) (some 2)

/-- ValidationError("x", data=1): only the raw input supplied. -/
def errOnlyData : ValidationError Nat :=
  ValidationError.make Nat (.str "x") SCHEMA (some 1) none

/-- The two same-module registrations of `n`, as a call list. -/
def callsSameLoc : List RegCall := [⟨"n", tM1⟩, ⟨"n", tM2⟩]

/-- The first of the two same-module registrations. -/
def callSameLoc0 : RegCall := ⟨"n", tM1⟩

/- Theorems. -/

/-- Claim C1: the spec says re-registering a short name from the same defining
location replaces the short-key entry with the singleton `[t2]`, so that
`get_class` returns `t2`. The code instead executes `del _registry[classname]`
without re-inserting, so after the two registrations the short key is absent and
both lookups fail with the NotFound registry error; the qualified key still
accumulates both classes. This evaluates the code at that failing input. -/
theorem register_same_location_deletes_short_key :
    regSameLoc "n" = none ∧
    get_class "n" false regSameLoc = .error .notFound ∧
    get_class "n" true regSameLoc = .error .notFound ∧
    regSameLoc "M.n" = some [tM1, tM2] := by
  refine ⟨by decide, rfl, rfl, by decide⟩

/-- Claim C2: the spec says a supplied non-sentinel location key `f` appears as
the key of `normalized_messages()`. The constructor instead assigns the constant
`SCHEMA` to `field_name`, ignoring the argument, so the result is keyed by the
sentinel and never by the supplied `"name"`. This evaluates the code at that
failing input. -/
theorem field_name_argument_ignored :
    errFieldName.field_name = SCHEMA ∧
    errFieldName.normalized_messages = .dict [(SCHEMA, .list [.str "x"])] ∧
    SCHEMA ≠ "name" := by
  refine ⟨rfl, rfl, by decide⟩

/-- Claim C3: the spec says two registrations of the same short name from
distinct defining locations make the short key ambiguous, so `get_class` with
`all=false` fails and with `all=true` returns both. The code never appends to an
existing short-key entry (the `elif classname not in _registry` branch is the
only insertion), so the entry still holds only the first class and both lookups
return it alone. This evaluates the code at that failing input. -/
theorem register_two_locations_keeps_only_first :
    regTwoLoc "n" = some [tA1] ∧
    get_class "n" false regTwoLoc = .ok (.one tA1) ∧
    get_class "n" true regTwoLoc = .ok (.one tA1) := by
  refine ⟨by decide, rfl, rfl⟩

/-- Claim C4: the spec says the raw input `data` and the partially valid output
`valid_data` are stored independently as supplied. The constructor swaps them
whenever `valid_data` is supplied: with `data=1, valid_data=2` it stores
`data=2` and `valid_data=1`. This evaluates the code at that failing input, and
at the input with only `data` supplied, where the stored values happen to agree
with the claim. -/
theorem data_and_valid_data_swapped :
    errBothData.data = some 2 ∧ errBothData.valid_data = some 1 ∧
    errOnlyData.data = some 1 ∧ errOnlyData.valid_data = none := by
  exact ⟨rfl, rfl, rfl, rfl⟩

/-- Claim C6: a single-string message payload is wrapped into a one-element
list (never treated as a sequence of characters), and
`ValidationError("bad value").normalized_messages()` is the one-entry mapping
from the schema-level sentinel to `["bad value"]`. -/
theorem string_message_wrapped_in_list :
    (∀ (s f : String) (d v : Option Nat),
      (ValidationError.make Nat (.str s) f d v).messages = .list [.str s]) ∧
    (ValidationError.make Nat (.str "bad value") SCHEMA none none).normalized_messages
      = .dict [(SCHEMA, .list [.str "bad value"])] :=
  ⟨fun _ _ _ _ => rfl, rfl⟩

/-- Claim C7: a name with no registry entry makes `get_class` fail with the
NotFound registry error for both values of `all`; no default is returned. -/
theorem get_class_absent_not_found (r : Registry) (n : String) (h : r n = none) :
    get_class n false r = .error .notFound ∧ get_class n true r = .error .notFound := by
  constructor <;> simp [get_class, h]

/-- Witness for C7: `get_class("NeverRegistered")` on the empty registry. -/
theorem get_class_absent_not_found_example :
    get_class "NeverRegistered" false Registry.empty = .error .notFound ∧
    get_class "NeverRegistered" true Registry.empty = .error .notFound :=
  get_class_absent_not_found Registry.empty "NeverRegistered" rfl

/-- Claim C8: `messages_dict` returns the stored payload exactly when it is a
dict and fails with a TypeError naming the payload shape otherwise; in
particular it fails with the shape name `list` when the payload came from
wrapping a single string. -/
theorem messages_dict_requires_dict :
    (∀ (m : List (String × Payload)) (f : String) (d v : Option Nat),
      (ValidationError.make Nat (.dict m) f d v).messages_dict = .ok m) ∧
    (∀ (s f : String) (d v : Option Nat),
      (ValidationError.make Nat (.str s) f d v).messages_dict
        = .error "cannot access messages_dict when messages is of type list") ∧
    (∀ (b : List Nat) (f : String) (d v : Option Nat),
      (ValidationError.make Nat (.bytes b) f d v).messages_dict
        = .error "cannot access messages_dict when messages is of type list") ∧
    (∀ (l : List Payload) (f : String) (d v : Option Nat),
      (ValidationError.make Nat (.list l) f d v).messages_dict
        = .error "cannot access messages_dict when messages is of type list") :=
  ⟨fun _ _ _ _ => rfl, fun _ _ _ _ => rfl, fun _ _ _ _ => rfl, fun _ _ _ _ => rfl⟩

/-- Claim C9: when a registry entry holds exactly one candidate, `get_class`
with `all=true` returns that single class (not a one-element list), and the
full-list result shape only ever occurs for entries with at least two
candidates. -/
theorem get_class_single_candidate (r : Registry) (n : String) (t : SchemaType)
    (h : r n = some [t]) :
    get_class n true r = .ok (.one t) ∧
    ∀ (b : Bool) (l : List SchemaType), get_class n b r = .ok (.many l) → 2 ≤ l.length := by
  constructor
  · simp [get_class, h]
  · intro b l hl
    unfold get_class at hl
    split at hl
    · simp at hl
    · rename_i classes heq
      split at hl
      · rename_i hlen
        split at hl
        · simp only [Except.ok.injEq, GetResult.many.injEq] at hl
          subst hl
          omega
        · simp at hl
      · split at hl
        · simp at hl
        · simp at hl

/-- Witness for C9: a registry whose entry for `a` is the singleton `[tC9]`. -/
theorem get_class_single_candidate_example :
    get_class "a" true regOne = .ok (.one tC9) :=
  (get_class_single_candidate regOne "a" tC9 (by decide)).1

/-- Claim C10: a bytes payload is wrapped into a one-element list exactly as a
string payload is, and a list or dict payload is stored as passed, unchanged. -/
theorem canonicalization_by_payload_shape :
    (∀ (b : List Nat) (f : String) (d v : Option Nat),
      (ValidationError.make Nat (.bytes b) f d v).messages = .list [.bytes b]) ∧
    (∀ (l : List Payload) (f : String) (d v : Option Nat),
      (ValidationError.make Nat (.list l) f d v).messages = .list l) ∧
    (∀ (m : List (String × Payload)) (f : String) (d v : Option Nat),
      (ValidationError.make Nat (.dict m) f d v).messages = .dict m) :=
  ⟨fun _ _ _ _ => rfl, fun _ _ _ _ => rfl, fun _ _ _ _ => rfl⟩

/-- The short-key phase never touches any other key. -/
theorem registerShort_apply_ne (classname q : String) (cls : SchemaType) (r : Registry)
    (hq : q ≠ classname) : registerShort classname cls r q = r q := by
  unfold registerShort
  cases hc : r classname with
  | none => simp [Registry.set, hq]
  | some entry =>
      by_cases ha : (entry.any fun each => each.module == cls.module) = true
      · simp [ha, Registry.erase, hq]
      · simp [ha]

/-- The qualified-key phase appends the class at its own key: an absent entry
becomes `[cls]`, an existing one grows by `cls`. -/
theorem registerQual_apply_self (fullpath : String) (cls : SchemaType) (r : Registry) :
    registerQual fullpath cls r fullpath = some ((r fullpath).getD [] ++ [cls]) := by
  unfold registerQual
  cases hc : r fullpath with
  | none => simp [Registry.set]
  | some entry => simp [Registry.set]

/-- The qualified-key phase never touches any other key. -/
theorem registerQual_apply_ne (fullpath q : String) (cls : SchemaType) (r : Registry)
    (hq : q ≠ fullpath) : registerQual fullpath cls r q = r q := by
  unfold registerQual
  cases hc : r fullpath with
  | none => simp [Registry.set, hq]
  | some entry => simp [Registry.set, hq]

/-- Effect of one `register` call on a key that is not the short key: the entry
is extended by `cls` when the key is the call's qualified key, and untouched
otherwise. In particular no such key is ever removed or truncated. -/
theorem register_apply_ne (classname q : String) (cls : SchemaType) (r : Registry)
    (hq : q ≠ classname) :
    register classname cls r q =
      if cls.module ++ "." ++ classname = q then some ((r q).getD [] ++ [cls])
      else r q := by
  unfold register
  by_cases hfp : cls.module ++ "." ++ classname = q
  · rw [if_pos hfp]
    subst hfp
    rw [registerQual_apply_self, registerShort_apply_ne _ _ _ _ hq]
  · rw [if_neg hfp]
    rw [registerQual_apply_ne _ _ _ _ (Ne.symm hfp), registerShort_apply_ne _ _ _ _ hq]

/-- Appending nothing leaves an entry as it was. -/
theorem accQual_nil (o : Option (List SchemaType)) : accQual o [] = o := by
  cases o with
  | none => rfl
  | some e => simp [accQual]

/-- Appending one class and then a batch is appending the class-led batch. -/
theorem accQual_step (o : Option (List SchemaType)) (t : SchemaType) (l : List SchemaType) :
    accQual (some (o.getD [] ++ [t])) l = accQual o (t :: l) := by
  cases o with
  | none => simp [accQual]
  | some e => simp [accQual, List.append_assoc]

/-- Folding `register` over a call list, watched at a key `q` that is no call's
short key: the entry at `q` accumulates, in order, exactly the classes of the
calls whose qualified key is `q`. -/
theorem registerAll_go_qual (calls : List RegCall) (r : Registry) (q : String)
    (h : ∀ c ∈ calls, c.classname ≠ q) :
    calls.foldl (fun r c => register c.classname c.cls r) r q =
      accQual (r q) ((calls.filter (fun c => fullpathOf c == q)).map RegCall.cls) := by
  induction calls generalizing r with
  | nil => simp [accQual_nil]
  | cons c rest ih =>
      have hc : c.classname ≠ q := h c (List.mem_cons_self c rest)
      have hrest : ∀ c2 ∈ rest, c2.classname ≠ q := fun c2 h2 => h c2 (List.mem_cons_of_mem c h2)
      simp only [List.foldl_cons, List.filter_cons]
      rw [ih _ hrest, register_apply_ne _ _ _ _ (Ne.symm hc)]
      by_cases hfp : fullpathOf c = q
      · have hfp2 : c.cls.module ++ "." ++ c.classname = q := hfp
        rw [if_pos hfp2, if_pos (by exact beq_iff_eq.mpr hfp)]
        rw [List.map_cons]
        exact accQual_step _ _ _
      · have hfp2 : ¬(c.cls.module ++ "." ++ c.classname = q) := hfp
        rw [if_neg hfp2, if_neg (by simp [hfp])]

/-- A qualified key always contains a dot. -/
theorem dot_mem_fullpath (m n : String) : '.' ∈ (m ++ "." ++ n).data := by
  simp only [String.data_append]
  refine List.mem_append.mpr (Or.inl (List.mem_append.mpr (Or.inr ?_)))
  decide

/-- Claim C5: for any sequence of `register` calls whose short names are
dot-free (as Python class names are), every registered class has its one
qualified-key entry, and that entry lists, in registration order, exactly the
classes of every call with that same qualified key; in particular no call ever
removes or truncates a qualified-key entry. -/
theorem qualified_key_accumulates (calls : List RegCall)
    (h : ∀ c ∈ calls, '.' ∉ c.classname.data) (c : RegCall) (hc : c ∈ calls) :
    registerAll calls (fullpathOf c) =
      some ((calls.filter (fun c2 => fullpathOf c2 == fullpathOf c)).map RegCall.cls) := by
  have hne : ∀ c2 ∈ calls, c2.classname ≠ fullpathOf c := by
    intro c2 h2 heq
    apply h c2 h2
    rw [heq]
    exact dot_mem_fullpath c.cls.module c.classname
  have hmain := registerAll_go_qual calls Registry.empty (fullpathOf c) hne
  rw [registerAll, hmain]
  have hmem : c.cls ∈ (calls.filter (fun c2 => fullpathOf c2 == fullpathOf c)).map RegCall.cls :=
    List.mem_map.mpr ⟨c, List.mem_filter.mpr ⟨hc, by simp⟩, rfl⟩
  cases hl : (calls.filter (fun c2 => fullpathOf c2 == fullpathOf c)).map RegCall.cls with
  | nil => rw [hl] at hmem; cases hmem
  | cons a l2 => rfl

/-- Witness for C5: the two same-module registrations of `n` from module `M`
accumulate both classes at the qualified key `M.n`. -/
theorem qualified_key_accumulates_example :
    registerAll callsSameLoc (fullpathOf callSameLoc0) =
      some ((callsSameLoc.filter
        (fun c2 => fullpathOf c2 == fullpathOf callSameLoc0)).map RegCall.cls) :=
  qualified_key_accumulates callsSameLoc (by decide) callSameLoc0 (by decide)

end Marshmallow
